import Mathlib

/-!
Verification of the `oscap_helpers` module of openscap-daemon.

The Python module is shallowly embedded below: pure helpers become Lean
functions over `String` and `List Char`, Python exceptions become `Option`
or `Except`, the Python dict used for profile discovery becomes an ordered
association list with dict update semantics, and the filesystem side
effects of `evaluate` become an explicit record of the run directory state.
External collaborators (the XML library, the spawned process) are modelled
as narrow inputs: a parsed document is an oracle of discovered profiles,
and the spawned process is a `LaunchResult` describing how the child ended.
-/

set_option maxHeartbeats 1000000

namespace OscapDaemon

/-! ## Small string and number utilities (models of Python primitives) -/

/-- Decimal digit character for a value below ten. -/
def digitChar : Nat → Char
  | 0 => '0'
  | 1 => '1'
  | 2 => '2'
  | 3 => '3'
  | 4 => '4'
  | 5 => '5'
  | 6 => '6'
  | 7 => '7'
  | 8 => '8'
  | _ => '9'

/-- Value of a decimal digit character, none for any other character. -/
def digitVal (c : Char) : Option Nat :=
  if c.isDigit then some (c.toNat - 48) else none

/-- Fuelled helper for decimal rendering; the fuel always suffices when it
exceeds the number being rendered. -/
def natToDigitsF (fuel : Nat) (n : Nat) : List Char :=
  match fuel with
  | 0 => []
  | fuel + 1 =>
    if n < 10 then [digitChar n]
    else natToDigitsF fuel (n / 10) ++ [digitChar (n % 10)]

/-- Decimal digits of a natural number, most significant first. -/
def natToDigits (n : Nat) : List Char :=
  natToDigitsF (n + 1) n

/-- Power of ten matching the digit count of `n`, used in roundtrip proofs. -/
def tenPow (n : Nat) : Nat :=
  if _ : n < 10 then 10
  else tenPow (n / 10) * 10
decreasing_by exact Nat.div_lt_self (by omega) (by omega)

/-- Model of the Python rendering `"%i" % i` at the character level. -/
def intReprChars (i : Int) : List Char :=
  if i < 0 then '-' :: natToDigits (-i).toNat else natToDigits i.toNat

/-- Model of the Python rendering `"%i" % i`. -/
def intRepr (i : Int) : String :=
  String.mk (intReprChars i)

/-- Accumulator pass of decimal parsing; fails on a non-digit character. -/
def digitsVal (acc : Nat) : List Char → Option Nat
  | [] => some acc
  | c :: cs =>
    match digitVal c with
    | some d => digitsVal (acc * 10 + d) cs
    | none => none

/-- Decimal parse of a nonempty all-digit character list. -/
def digitsToNat : List Char → Option Nat
  | [] => none
  | c :: cs => digitsVal 0 (c :: cs)

/-- Both-ends whitespace strip, as Python `str.strip()` does before `int`. -/
def pyStrip (l : List Char) : List Char :=
  ((l.dropWhile Char.isWhitespace).reverse.dropWhile Char.isWhitespace).reverse

/-- Sign and digit phase of the Python `int(s)` model, after stripping. -/
def pyIntOfStripped : List Char → Option Int
  | [] => none
  | c :: rest =>
    if c = '-' then (digitsToNat rest).map (fun n : Nat => -(n : Int))
    else if c = '+' then (digitsToNat rest).map (fun n : Nat => (n : Int))
    else (digitsToNat (c :: rest)).map (fun n : Nat => (n : Int))

/-- Model of Python `int(s)` on a character list: optional surrounding
whitespace, optional sign, then decimal digits; anything else fails. -/
def pyIntChars (l : List Char) : Option Int :=
  pyIntOfStripped (pyStrip l)

/-- Model of Python `int(s)`. -/
def pyInt (s : String) : Option Int :=
  pyIntChars s.toList

/-- Boolean test that `p` is a leading segment of `l`. -/
def listIsPre : List Char → List Char → Bool
  | [], _ => true
  | _ :: _, [] => false
  | a :: as, b :: bs => if a = b then listIsPre as bs else false

/-- Model of Python `s.startswith(p)`. -/
def pyStartsWith (s p : String) : Bool :=
  listIsPre p.toList s.toList

/-- Model of the Python slice `s[n:]` (character based). -/
def pyDrop (s : String) (n : Nat) : String :=
  String.mk (s.toList.drop n)

/-- Model of Python `":" in s` on a character list. -/
def pyContainsColon : List Char → Bool
  | [] => false
  | c :: cs => if c = ':' then true else pyContainsColon cs

/-- Model of Python `s.split(":")`: split at every colon. -/
def pySplitColon : List Char → List (List Char)
  | [] => [[]]
  | c :: cs =>
    let r := pySplitColon cs
    if c = ':' then [] :: r
    else
      match r with
      | [] => [[c]]
      | g :: gs => (c :: g) :: gs

/-- Split at the first colon only, following the wording of the spec. -/
def splitFirstColon : List Char → Option (List Char × List Char)
  | [] => none
  | c :: cs =>
    if c = ':' then some ([], cs)
    else (splitFirstColon cs).map (fun p => (c :: p.1, p.2))

/-! ## EvaluationMode (integer constants, as in the source class) -/

namespace EvaluationMode

def UNKNOWN : Int := -1
def SOURCE_DATASTREAM : Int := 1
def OVAL : Int := 2
def CVE_SCAN : Int := 3
def STANDARD_SCAN : Int := 4

/-- Embedding of `EvaluationMode.to_string`. -/
def to_string (value : Int) : String :=
  if value = SOURCE_DATASTREAM then "sds"
  else if value = OVAL then "oval"
  else if value = CVE_SCAN then "cve_scan"
  else if value = STANDARD_SCAN then "standard_scan"
  else "unknown"

/-- Embedding of `EvaluationMode.from_string`. -/
def from_string (value : String) : Int :=
  if value = "sds" then SOURCE_DATASTREAM
  else if value = "oval" then OVAL
  else if value = "cve_scan" then CVE_SCAN
  else if value = "standard_scan" then STANDARD_SCAN
  else UNKNOWN

end EvaluationMode

/-! ## Config and EvaluationSpec (external collaborators, read-only) -/

/-- The runtime configuration: resolved paths of the five external binaries
and the working directory root. An empty path means the tool is absent. -/
structure Config where
  oscap_path : String
  oscap_ssh_path : String
  oscap_docker_path : String
  oscap_vm_path : String
  oscap_chroot_path : String
  work_in_progress_dir : String
deriving DecidableEq, Repr

/-- The externally supplied evaluation request. The argument contributions
of the spec object are opaque to this module and modelled as fixed lists. -/
structure EvaluationSpec where
  mode : Int
  target : String
  profile_id : String
  input_file_path : String
  valid : Bool
  oscap_arguments : List String
  oscap_guide_arguments : List String
deriving DecidableEq, Repr

/-! ## Target resolution -/

/-- Shared body of the ssh host and port parse as the source performs it:
Python splits the remainder at every colon and unpacks exactly two parts. -/
def pyParseHostPort (l : List Char) : Option (String × Int) :=
  if pyContainsColon l then
    match pySplitColon l with
    | [host, portChars] => (pyIntChars portChars).map (fun p => (String.mk host, p))
    | _ => none
  else some (String.mk l, 22)

/-- The remainder of an ssh target after its scheme. -/
def sshRest (target : String) : List Char :=
  (if pyStartsWith target "ssh+sudo://" then pyDrop target 11 else pyDrop target 6).toList

/-- Embedding of `split_ssh_target`; `none` is the raised exception. -/
def split_ssh_target (target : String) : Option (String × Int) :=
  if !(pyStartsWith target "ssh://") && !(pyStartsWith target "ssh+sudo://") then none
  else pyParseHostPort (sshRest target)

/-- The host and port parse as the specification words it: the remainder is
split once at the first colon into host and numeric port; no colon means
port 22. Written for comparison with `split_ssh_target`. -/
def specParseHostPort (l : List Char) : Option (String × Int) :=
  match splitFirstColon l with
  | some (host, portChars) => (pyIntChars portChars).map (fun p => (String.mk host, p))
  | none => some (String.mk l, 22)

/-- Specification-worded form of `split_ssh_target`. -/
def spec_split_ssh_target (target : String) : Option (String × Int) :=
  if !(pyStartsWith target "ssh://") && !(pyStartsWith target "ssh+sudo://") then none
  else specParseHostPort (sshRest target)

/-- Embedding of `get_evaluation_args`; `Except.error` is the raised
exception, carrying a short tag for the message of the source. -/
def get_evaluation_args (spec : EvaluationSpec) (config : Config) : Except String (List String) :=
  (fun r => r.map (fun start => start ++ spec.oscap_arguments)) <|
  if spec.target = "localhost" then
    if config.oscap_path = "" then
      Except.error "Target requires the oscap tool which has not been found"
    else Except.ok [config.oscap_path]
  else if pyStartsWith spec.target "ssh://" then
    if config.oscap_ssh_path = "" then
      Except.error "Target requires the oscap-ssh tool which has not been found"
    else
      match split_ssh_target spec.target with
      | none => Except.error "ssh target parse failure"
      | some (host, port) => Except.ok [config.oscap_ssh_path, host, intRepr port]
  else if pyStartsWith spec.target "ssh+sudo://" then
    if config.oscap_ssh_path = "" then
      Except.error "Target requires the oscap-ssh tool which has not been found"
    else
      match split_ssh_target spec.target with
      | none => Except.error "ssh target parse failure"
      | some (host, port) => Except.ok [config.oscap_ssh_path, "--sudo", host, intRepr port]
  else if pyStartsWith spec.target "docker-image://" then
    if config.oscap_ssh_path = "" then
      Except.error "Target requires the oscap-docker tool which has not been found"
    else Except.ok [config.oscap_docker_path, "image", pyDrop spec.target 15]
  else if pyStartsWith spec.target "docker-container://" then
    if config.oscap_ssh_path = "" then
      Except.error "Target requires the oscap-docker tool which has not been found"
    else Except.ok [config.oscap_docker_path, "container", pyDrop spec.target 19]
  else if pyStartsWith spec.target "vm-domain://" then
    if config.oscap_vm_path = "" then
      Except.error "Target requires the oscap-vm tool which has not been found"
    else Except.ok [config.oscap_vm_path, "domain", pyDrop spec.target 12]
  else if pyStartsWith spec.target "vm-image://" then
    if config.oscap_vm_path = "" then
      Except.error "Target requires the oscap-vm tool which has not been found"
    else Except.ok [config.oscap_vm_path, "image", pyDrop spec.target 11]
  else if pyStartsWith spec.target "chroot://" then
    if config.oscap_chroot_path = "" then
      Except.error "Target requires the oscap-chroot tool which has not been found"
    else Except.ok [config.oscap_chroot_path, pyDrop spec.target 9]
  else Except.error "Unrecognized target in evaluation spec"

/-! ## The evaluate orchestrator -/

/-- How the spawned child process ended: it exited with a code, or the
launch itself raised (caught by the bare except of the source). -/
inductive LaunchResult where
  | exited (code : Int)
  | failed
deriving DecidableEq, Repr

/-- Observable state of the run directory owned by `evaluate`. -/
structure RunDirState where
  created : Bool
  stdoutOpened : Bool
  stderrOpened : Bool
  exitCodeContent : Option String
deriving DecidableEq, Repr

/-- The exit code the source records: the observed code, or 1 when the
launch raised (the initial value of the `exit_code` local). -/
def observedExit : LaunchResult → Int
  | .exited code => code
  | .failed => 1

/-- Embedding of `evaluate`. The unique directory name chosen by `mkdtemp`
and the fate of the child process are inputs from the environment. An error
carries the run directory state left behind, `none` when the error was
raised before the directory was created. -/
def evaluate (spec : EvaluationSpec) (config : Config) (launch : LaunchResult)
    (dirName : String) : Except (String × Option RunDirState) (String × RunDirState) :=
  if !spec.valid then
    Except.error ("Cannot evaluate an invalid EvaluationSpec", none)
  else
    let st0 : RunDirState :=
      { created := true, stdoutOpened := true, stderrOpened := true, exitCodeContent := none }
    match get_evaluation_args spec config with
    | Except.error msg => Except.error (msg, some st0)
    | Except.ok _ =>
      let exit_code : Int := observedExit launch
      Except.ok (dirName, { st0 with exitCodeContent := some (intRepr exit_code) })

/-! ## Profile discovery -/

/-- The ordered key to title map built by profile discovery: a Python dict
whose keys are the id attributes of Profile elements (`none` when the
attribute is absent) plus the sentinel key. -/
abbrev PyDict : Type := List (Option String × String)

/-- Key membership in the dict model. -/
def hasKey : PyDict → Option String → Bool
  | [], _ => false
  | (k, _) :: rest, key => if k = key then true else hasKey rest key

/-- Python dict assignment `d[k] = v`: replace in place when the key is
present, append otherwise. -/
def pySet (m : PyDict) (key : Option String) (v : String) : PyDict :=
  if hasKey m key then
    m.map (fun p => if p.1 = key then (key, v) else p)
  else m ++ [(key, v)]

/-- Lookup in the dict model. -/
def getVal : PyDict → Option String → Option String
  | [], _ => none
  | (k, v) :: rest, key => if k = key then some v else getVal rest key

/-- Number of entries carrying a given key. -/
def countKey : PyDict → Option String → Nat
  | [], _ => 0
  | (k, _) :: rest, key => (if k = key then 1 else 0) + countKey rest key

/-- Every key occurs at most once; the invariant of the dict model. -/
def AllLE1 (m : PyDict) : Prop :=
  ∀ k, countKey m k ≤ 1

/-- A parsed content or tailoring document, reduced to the narrow interface
the scraper uses: for a requested xccdf id and a datastream namespace, the
ordered list of Profile id and title pairs the XPath queries would yield. -/
structure XmlDoc where
  found : Option String → String → List (Option String × String)

/-- Outcome of `ElementTree.parse` on a path. -/
inductive ParseOutcome where
  | parsed (doc : XmlDoc)
  | ioError
  | parseError

def ns_source_11 : String := "http://scap.nist.gov/schema/scap/source/1.1"
def ns_source_12 : String := "http://scap.nist.gov/schema/scap/source/1.2"

/-- Embedding of the inner `scrape_profiles`: record every discovered pair
into the destination dict in order. -/
def scrape_profiles (tree : XmlDoc) (xccdf_id : Option String) (xccdf_ns : String)
    (dest : PyDict) : PyDict :=
  (tree.found xccdf_id xccdf_ns).foldl (fun d p => pySet d p.1 p.2) dest

/-- Embedding of `get_profile_choices_for_input`: the two input paths are
modelled by their parse outcomes. An uncaught exception is `Except.error`. -/
def get_profile_choices_for_input (input_file : ParseOutcome)
    (tailoring_file : Option ParseOutcome) (xccdf_id : Option String) :
    Except String PyDict :=
  let ret : PyDict := []
  match input_file with
  | .ioError => Except.ok ret
  | .parseError => Except.ok ret
  | .parsed input_tree =>
    let ret := scrape_profiles input_tree xccdf_id ns_source_11 ret
    let ret := scrape_profiles input_tree xccdf_id ns_source_12 ret
    match tailoring_file with
    | none => Except.ok (pySet ret (some "") "(default)")
    | some .ioError => Except.error "IOError"
    | some .parseError => Except.error "ParseError"
    | some (.parsed tailoring_tree) =>
      let ret := scrape_profiles tailoring_tree none ns_source_11 ret
      let ret := scrape_profiles tailoring_tree none ns_source_12 ret
      Except.ok (pySet ret (some "") "(default)")

/-! ## Exit status classification -/

/-- Embedding of `get_status_from_exit_code`. -/
def get_status_from_exit_code (exit_code : Int) : String :=
  let status := "Unknown (exit_code = " ++ intRepr exit_code ++ ")"
  if exit_code = 0 then "Compliant"
  else if exit_code = 1 then "Evaluation Error"
  else if exit_code = 2 then "Non-Compliant"
  else status

/-! ## Fix generation -/

/-- Embedding of `_fix_type_to_template`; `none` is the KeyError of the
dict lookup. -/
def fix_type_to_template (fix_type : String) : Option String :=
  if fix_type = "bash" then some "urn:xccdf:fix:script:sh"
  else if fix_type = "ansible" then some "urn:xccdf:fix:script:ansible"
  else if fix_type = "puppet" then some "urn:xccdf:fix:script:puppet"
  else none

/-- The results document handed to fix generation, reduced to what the code
inspects: whether the path exists, whether it parses, whether a TestResult
element is present, and the id attribute of that element. -/
inductive ResultsFile where
  | missing
  | unparsable
  | parsed (testResult : Option (Option String))
deriving DecidableEq, Repr

/-- Embedding of `_get_result_id`. -/
def get_result_id : ResultsFile → Except String String
  | .missing => Except.error "IOError"
  | .unparsable => Except.error "ParseError"
  | .parsed none => Except.error "Results XML does not contain any results"
  | .parsed (some none) => Except.error "KeyError: id"
  | .parsed (some (some rid)) => Except.ok rid

/-- Embedding of `generate_fix_for_result`, returning the argument vector
it hands to the external tool. -/
def generate_fix_for_result (config : Config) (results_file : ResultsFile)
    (results_path : String) (fix_type : String) (xccdf_id : Option String) :
    Except String (List String) :=
  if results_file = ResultsFile.missing then
    Except.error "Expected results XML but the file does not exist"
  else
    match get_result_id results_file with
    | Except.error e => Except.error e
    | Except.ok result_id =>
      match fix_type_to_template fix_type with
      | none => Except.error "KeyError: fix_type"
      | some template =>
        Except.ok
          ([config.oscap_path, "xccdf", "generate", "fix",
            "--result-id", result_id, "--template", template]
           ++ (match xccdf_id with
               | some x => ["--xccdf-id", x]
               | none => [])
           ++ [results_path])

/-! ## Concrete objects used by witnesses and counterexamples -/

/-- A fully populated configuration. -/
def cfgFull : Config :=
  { oscap_path := "/usr/bin/oscap"
  , oscap_ssh_path := "/usr/bin/oscap-ssh"
  , oscap_docker_path := "/usr/bin/oscap-docker"
  , oscap_vm_path := "/usr/bin/oscap-vm"
  , oscap_chroot_path := "/usr/bin/oscap-chroot"
  , work_in_progress_dir := "/var/lib/oscapd/work" }

/-- A configuration whose ssh tool is missing but whose docker tool is
present. -/
def cfgNoSsh : Config :=
  { cfgFull with oscap_ssh_path := "" }

/-- A configuration whose docker tool is missing but whose ssh tool is
present. -/
def cfgNoDocker : Config :=
  { cfgFull with oscap_docker_path := "" }

/-- A configuration without the primary oscap tool. -/
def cfgNoOscap : Config :=
  { cfgFull with oscap_path := "" }

/-- A valid spec whose target is a docker image. -/
def dockerSpec : EvaluationSpec :=
  { mode := EvaluationMode.SOURCE_DATASTREAM
  , target := "docker-image://fedora"
  , profile_id := "p"
  , input_file_path := "/content/ssg.xml"
  , valid := true
  , oscap_arguments := []
  , oscap_guide_arguments := [] }

/-- A valid spec whose target matches none of the six schemes. -/
def badTargetSpec : EvaluationSpec :=
  { dockerSpec with target := "foo://x" }

/-- A valid spec scanning the local host. -/
def localSpec : EvaluationSpec :=
  { dockerSpec with target := "localhost", oscap_arguments := ["xccdf", "eval"] }

/-- A valid spec with an ssh plus sudo target carrying an explicit port. -/
def sudoSpec : EvaluationSpec :=
  { dockerSpec with target := "ssh+sudo://rh:2222" }

/-- A content document exposing one profile in each namespace generation. -/
def sampleDoc : XmlDoc :=
  { found := fun _ ns =>
      if ns = ns_source_11 then [(some "p1", "Title A")] else [] }

/-! ## Lemmas: decimal rendering and parsing roundtrip -/

theorem digitVal_digitChar {n : Nat} (h : n < 10) : digitVal (digitChar n) = some n := by
  interval_cases n <;> decide

theorem digitChar_not_ws {n : Nat} (h : n < 10) : (digitChar n).isWhitespace = false := by
  interval_cases n <;> decide

theorem digitChar_ne_minus {n : Nat} (h : n < 10) : digitChar n ≠ '-' := by
  interval_cases n <;> decide

theorem digitChar_ne_plus {n : Nat} (h : n < 10) : digitChar n ≠ '+' := by
  interval_cases n <;> decide

theorem natToDigitsF_agree : ∀ (fuel fuel2 n : Nat), n < fuel → n < fuel2 →
    natToDigitsF fuel n = natToDigitsF fuel2 n := by
  intro fuel
  induction fuel with
  | zero => intro fuel2 n h _; omega
  | succ f ih =>
    intro fuel2 n h h2
    cases fuel2 with
    | zero => omega
    | succ f2 =>
      show (if n < 10 then _ else _) = (if n < 10 then _ else _)
      by_cases hn : n < 10
      · simp [hn]
      · have hdiv : n / 10 < n := Nat.div_lt_self (by omega) (by omega)
        simp only [if_neg hn]
        rw [ih f2 (n / 10) (by omega) (by omega)]

theorem natToDigits_base {n : Nat} (h : n < 10) : natToDigits n = [digitChar n] := by
  show (if n < 10 then _ else _) = _
  simp [h]

theorem natToDigits_step {n : Nat} (h : 10 ≤ n) :
    natToDigits n = natToDigits (n / 10) ++ [digitChar (n % 10)] := by
  have hdiv : n / 10 < n := Nat.div_lt_self (by omega) (by omega)
  show (if n < 10 then _ else natToDigitsF n (n / 10) ++ _) = _
  rw [if_neg (by omega)]
  rw [natToDigitsF_agree n (n / 10 + 1) (n / 10) (by omega) (by omega)]
  rfl

theorem digitsVal_append : ∀ (l1 l2 : List Char) (acc : Nat),
    digitsVal acc (l1 ++ l2)
      = match digitsVal acc l1 with
        | some a => digitsVal a l2
        | none => none := by
  intro l1
  induction l1 with
  | nil => intro l2 acc; rfl
  | cons c cs ih =>
    intro l2 acc
    show (match digitVal c with
          | some d => digitsVal (acc * 10 + d) (cs ++ l2)
          | none => none) = _
    cases hd : digitVal c with
    | some d => simpa [digitsVal, hd] using ih l2 (acc * 10 + d)
    | none => simp [digitsVal, hd]

theorem digitsVal_natToDigits (n : Nat) : ∀ acc : Nat,
    digitsVal acc (natToDigits n) = some (acc * tenPow n + n) := by
  induction n using Nat.strong_induction_on with
  | _ n ih =>
    intro acc
    by_cases h : n < 10
    · rw [natToDigits_base h]
      show (match digitVal (digitChar n) with
            | some d => digitsVal (acc * 10 + d) []
            | none => none) = _
      rw [digitVal_digitChar h]
      show some (acc * 10 + n) = some (acc * tenPow n + n)
      have ht : tenPow n = 10 := by unfold tenPow; simp [h]
      rw [ht]
    · have hdiv : n / 10 < n := Nat.div_lt_self (by omega) (by omega)
      rw [natToDigits_step (by omega), digitsVal_append]
      rw [ih (n / 10) hdiv acc]
      show digitsVal (acc * tenPow (n / 10) + n / 10) [digitChar (n % 10)] = _
      have hm : n % 10 < 10 := Nat.mod_lt _ (by omega)
      show (match digitVal (digitChar (n % 10)) with
            | some d => digitsVal ((acc * tenPow (n / 10) + n / 10) * 10 + d) []
            | none => none) = _
      rw [digitVal_digitChar hm]
      show some ((acc * tenPow (n / 10) + n / 10) * 10 + n % 10)
            = some (acc * tenPow n + n)
      have ht : tenPow n = tenPow (n / 10) * 10 := by
        conv_lhs => unfold tenPow
        simp [h]
      rw [ht]
      congr 1
      have hdm : n / 10 * 10 + n % 10 = n := by omega
      calc (acc * tenPow (n / 10) + n / 10) * 10 + n % 10
          = acc * (tenPow (n / 10) * 10) + (n / 10 * 10 + n % 10) := by ring
        _ = acc * (tenPow (n / 10) * 10) + n := by rw [hdm]

theorem natToDigits_ne_nil (n : Nat) : natToDigits n ≠ [] := by
  by_cases h : n < 10
  · rw [natToDigits_base h]; simp
  · rw [natToDigits_step (by omega)]; simp

theorem digitsToNat_natToDigits (n : Nat) : digitsToNat (natToDigits n) = some n := by
  cases hl : natToDigits n with
  | nil => exact absurd hl (natToDigits_ne_nil n)
  | cons c cs =>
    have : digitsToNat (c :: cs) = digitsVal 0 (c :: cs) := rfl
    rw [this, ← hl, digitsVal_natToDigits]
    simp

theorem natToDigits_mem (n : Nat) : ∀ c ∈ natToDigits n, ∃ d, d < 10 ∧ c = digitChar d := by
  induction n using Nat.strong_induction_on with
  | _ n ih =>
    intro c hc
    by_cases h : n < 10
    · rw [natToDigits_base h] at hc
      simp at hc
      exact ⟨n, h, hc⟩
    · have hdiv : n / 10 < n := Nat.div_lt_self (by omega) (by omega)
      rw [natToDigits_step (by omega)] at hc
      rcases List.mem_append.mp hc with h1 | h2
      · exact ih (n / 10) hdiv c h1
      · simp at h2
        exact ⟨n % 10, Nat.mod_lt _ (by omega), h2⟩

theorem dropWhile_of_all {p : Char → Bool} : ∀ {l : List Char},
    (∀ c ∈ l, p c = false) → l.dropWhile p = l := by
  intro l h
  cases l with
  | nil => rfl
  | cons c cs =>
    rw [List.dropWhile_cons_of_neg]
    simp [h c (by simp)]

theorem pyStrip_of_all {l : List Char} (h : ∀ c ∈ l, c.isWhitespace = false) :
    pyStrip l = l := by
  unfold pyStrip
  rw [dropWhile_of_all h]
  rw [dropWhile_of_all (by intro c hc; exact h c (List.mem_reverse.mp hc))]
  exact List.reverse_reverse l

theorem pyIntChars_intReprChars (i : Int) : pyIntChars (intReprChars i) = some i := by
  by_cases hi : i < 0
  · have hrep : intReprChars i = '-' :: natToDigits (-i).toNat := by
      unfold intReprChars; simp [hi]
    have hws : ∀ c ∈ intReprChars i, c.isWhitespace = false := by
      rw [hrep]
      intro c hc
      rcases List.mem_cons.mp hc with h1 | h2
      · rw [h1]; decide
      · obtain ⟨d, hd, hcd⟩ := natToDigits_mem _ c h2
        rw [hcd]; exact digitChar_not_ws hd
    unfold pyIntChars
    rw [pyStrip_of_all hws, hrep]
    simp [pyIntOfStripped, digitsToNat_natToDigits]
    omega
  · have hrep : intReprChars i = natToDigits i.toNat := by
      unfold intReprChars; simp [hi]
    have hws : ∀ c ∈ intReprChars i, c.isWhitespace = false := by
      rw [hrep]
      intro c hc
      obtain ⟨d, hd, hcd⟩ := natToDigits_mem _ c hc
      rw [hcd]; exact digitChar_not_ws hd
    unfold pyIntChars
    rw [pyStrip_of_all hws, hrep]
    cases hl : natToDigits i.toNat with
    | nil => exact absurd hl (natToDigits_ne_nil _)
    | cons c cs =>
      obtain ⟨d, hd, hcd⟩ := natToDigits_mem i.toNat c (by rw [hl]; simp)
      show (if c = '-' then _ else if c = '+' then _ else (digitsToNat (c :: cs)).map _) = _
      rw [if_neg (by rw [hcd]; exact digitChar_ne_minus hd)]
      rw [if_neg (by rw [hcd]; exact digitChar_ne_plus hd)]
      rw [← hl, digitsToNat_natToDigits]
      simp
      omega

theorem pyInt_intRepr (i : Int) : pyInt (intRepr i) = some i := by
  show pyIntChars (String.mk (intReprChars i)).toList = some i
  exact pyIntChars_intReprChars i

/-! ## Lemmas: the colon split of the source versus the split of the spec -/

theorem splitFirstColon_none_iff : ∀ l : List Char,
    splitFirstColon l = none ↔ pyContainsColon l = false := by
  intro l
  induction l with
  | nil => simp [splitFirstColon, pyContainsColon]
  | cons c cs ih =>
    by_cases hc : c = ':'
    · simp [splitFirstColon, pyContainsColon, hc]
    · simp only [splitFirstColon, pyContainsColon, if_neg hc]
      cases h : splitFirstColon cs with
      | none => simpa [h] using ih
      | some p => simpa [h] using ih

theorem pySplitColon_of_none {l : List Char} (h : splitFirstColon l = none) :
    pySplitColon l = [l] := by
  induction l with
  | nil => rfl
  | cons c cs ih =>
    by_cases hc : c = ':'
    · simp [splitFirstColon, hc] at h
    · simp only [splitFirstColon, if_neg hc] at h
      cases hcs : splitFirstColon cs with
      | some p => rw [hcs] at h; simp at h
      | none =>
        simp only [pySplitColon, if_neg hc]
        rw [ih hcs]

theorem pySplitColon_of_some {l : List Char} {a b : List Char}
    (h : splitFirstColon l = some (a, b)) :
    pySplitColon l = a :: pySplitColon b := by
  induction l generalizing a with
  | nil => simp [splitFirstColon] at h
  | cons c cs ih =>
    by_cases hc : c = ':'
    · simp only [splitFirstColon, if_pos hc, Option.some.injEq, Prod.mk.injEq] at h
      obtain ⟨ha, hb⟩ := h
      subst hc; subst ha; subst hb
      rfl
    · simp only [splitFirstColon, if_neg hc] at h
      cases hcs : splitFirstColon cs with
      | none => rw [hcs] at h; simp at h
      | some p =>
        obtain ⟨a1, b1⟩ := p
        rw [hcs] at h
        simp at h
        obtain ⟨ha, hb⟩ := h
        subst hb
        have hrec := ih (a := a1) hcs
        simp only [pySplitColon, if_neg hc]
        rw [hrec, ← ha]

theorem pySplitColon_ne_nil : ∀ l : List Char, pySplitColon l ≠ [] := by
  intro l
  cases l with
  | nil => simp [pySplitColon]
  | cons c cs =>
    by_cases hc : c = ':'
    · simp [pySplitColon, hc]
    · simp only [pySplitColon, if_neg hc]
      cases h : pySplitColon cs with
      | nil => simp
      | cons g gs => simp

theorem splitFirstColon_colon_mem : ∀ {l : List Char} {p : List Char × List Char},
    splitFirstColon l = some p → ':' ∈ l := by
  intro l
  induction l with
  | nil => intro p h; simp [splitFirstColon] at h
  | cons c cs ih =>
    intro p h
    by_cases hc : c = ':'
    · rw [hc]; simp
    · simp only [splitFirstColon, if_neg hc] at h
      cases hcs : splitFirstColon cs with
      | none => rw [hcs] at h; simp at h
      | some q => exact List.mem_cons_of_mem c (ih hcs)

theorem mem_dropWhile_of {p : Char → Bool} {c : Char} :
    ∀ {l : List Char}, c ∈ l → p c = false → c ∈ l.dropWhile p := by
  intro l
  induction l with
  | nil => intro h _; simp at h
  | cons x xs ih =>
    intro h hc
    by_cases hx : p x
    · rw [List.dropWhile_cons_of_pos hx]
      rcases List.mem_cons.mp h with h1 | h2
      · rw [h1] at hc; rw [hc] at hx; simp at hx
      · exact ih h2 hc
    · rw [List.dropWhile_cons_of_neg hx]
      exact h

theorem mem_pyStrip {c : Char} {l : List Char} (h : c ∈ l)
    (hw : c.isWhitespace = false) : c ∈ pyStrip l := by
  unfold pyStrip
  rw [List.mem_reverse]
  exact mem_dropWhile_of (List.mem_reverse.mpr (mem_dropWhile_of h hw)) hw

theorem digitsVal_none_of {c : Char} (hd : digitVal c = none) :
    ∀ {l : List Char} (acc : Nat), c ∈ l → digitsVal acc l = none := by
  intro l
  induction l with
  | nil => intro acc h; simp at h
  | cons x xs ih =>
    intro acc h
    show (match digitVal x with
          | some d => digitsVal (acc * 10 + d) xs
          | none => none) = none
    cases hx : digitVal x with
    | none => rfl
    | some d =>
      rcases List.mem_cons.mp h with h1 | h2
      · rw [h1] at hd; rw [hd] at hx; simp at hx
      · exact ih _ h2

theorem digitsToNat_none_of {c : Char} {l : List Char} (h : c ∈ l)
    (hd : digitVal c = none) : digitsToNat l = none := by
  cases l with
  | nil => rfl
  | cons x xs => exact digitsVal_none_of hd 0 h

theorem pyIntChars_none_of_colon {l : List Char} (h : ':' ∈ l) :
    pyIntChars l = none := by
  have hcolon : digitVal ':' = none := by decide
  have hmem : ':' ∈ pyStrip l := mem_pyStrip h (by decide)
  unfold pyIntChars
  cases hs : pyStrip l with
  | nil => rfl
  | cons c rest =>
    rw [hs] at hmem
    show (if c = '-' then (digitsToNat rest).map _
          else if c = '+' then (digitsToNat rest).map _
          else (digitsToNat (c :: rest)).map _) = none
    by_cases h1 : c = '-'
    · rw [if_pos h1]
      have : ':' ∈ rest := by
        rcases List.mem_cons.mp hmem with hx | hx
        · rw [h1] at hx; simp at hx
        · exact hx
      rw [digitsToNat_none_of this hcolon]
      rfl
    · rw [if_neg h1]
      by_cases h2 : c = '+'
      · rw [if_pos h2]
        have : ':' ∈ rest := by
          rcases List.mem_cons.mp hmem with hx | hx
          · rw [h2] at hx; simp at hx
          · exact hx
        rw [digitsToNat_none_of this hcolon]
        rfl
      · rw [if_neg h2]
        rw [digitsToNat_none_of hmem hcolon]
        rfl

theorem parseHostPort_eq : ∀ l : List Char, pyParseHostPort l = specParseHostPort l := by
  intro l
  cases hs : splitFirstColon l with
  | none =>
    have hcontains : pyContainsColon l = false := (splitFirstColon_none_iff l).mp hs
    have h1 : pyParseHostPort l = some (String.mk l, 22) := by
      unfold pyParseHostPort
      rw [hcontains]
      rfl
    have h2 : specParseHostPort l = some (String.mk l, 22) := by
      unfold specParseHostPort
      rw [hs]
    rw [h1, h2]
  | some p =>
    obtain ⟨a, b⟩ := p
    have hcontains : pyContainsColon l = true := by
      cases hcc : pyContainsColon l with
      | true => rfl
      | false => rw [(splitFirstColon_none_iff l).mpr hcc] at hs; simp at hs
    have h2 : specParseHostPort l = (pyIntChars b).map (fun p => (String.mk a, p)) := by
      unfold specParseHostPort
      rw [hs]
    have hsplit := pySplitColon_of_some hs
    cases hb : splitFirstColon b with
    | none =>
      have h1 : pyParseHostPort l = (pyIntChars b).map (fun p => (String.mk a, p)) := by
        unfold pyParseHostPort
        rw [hcontains, hsplit, pySplitColon_of_none hb]
        rfl
      rw [h1, h2]
    | some q =>
      obtain ⟨c, d⟩ := q
      have hcolon : (':' ∈ b) := splitFirstColon_colon_mem hb
      have h1 : pyParseHostPort l = none := by
        unfold pyParseHostPort
        rw [hcontains, hsplit, pySplitColon_of_some hb]
        cases hd : pySplitColon d with
        | nil => exact absurd hd (pySplitColon_ne_nil d)
        | cons e es => rfl
      rw [h1, h2, pyIntChars_none_of_colon hcolon]
      rfl

theorem split_ssh_target_eq_spec (target : String) :
    split_ssh_target target = spec_split_ssh_target target := by
  unfold split_ssh_target spec_split_ssh_target
  by_cases h : (!(pyStartsWith target "ssh://") && !(pyStartsWith target "ssh+sudo://")) = true
  · rw [if_pos h, if_pos h]
  · rw [if_neg h, if_neg h]
    exact parseHostPort_eq (sshRest target)

/-! ## Lemmas: scheme tests -/

theorem listIsPre_iff : ∀ (p l : List Char), listIsPre p l = true ↔ ∃ r, l = p ++ r := by
  intro p
  induction p with
  | nil =>
    intro l
    constructor
    · intro _; exact ⟨l, rfl⟩
    · intro _; rfl
  | cons a as ih =>
    intro l
    cases l with
    | nil =>
      constructor
      · intro h; exact absurd h (by simp [listIsPre])
      · rintro ⟨r, hr⟩; simp at hr
    | cons b bs =>
      constructor
      · intro h
        have hab : a = b := by
          by_contra hne
          simp [listIsPre, hne] at h
        have h2 : listIsPre as bs = true := by
          simpa [listIsPre, hab] using h
        obtain ⟨r, hr⟩ := (ih bs).mp h2
        refine ⟨r, ?_⟩
        rw [hab, hr]
        rfl
      · rintro ⟨r, hr⟩
        rw [List.cons_append] at hr
        simp only [List.cons.injEq] at hr
        obtain ⟨hb, hbs⟩ := hr
        show (if a = b then listIsPre as bs else false) = true
        rw [if_pos hb.symm]
        exact (ih bs).mpr ⟨r, hbs⟩

theorem sudo_not_ssh {t : String} (h : pyStartsWith t "ssh+sudo://" = true) :
    pyStartsWith t "ssh://" = false := by
  obtain ⟨r, hr⟩ := (listIsPre_iff _ _).mp h
  show listIsPre "ssh://".toList t.toList = false
  rw [hr]
  rfl

theorem sudo_ne_localhost {t : String} (h : pyStartsWith t "ssh+sudo://" = true) :
    t ≠ "localhost" := by
  intro he
  rw [he] at h
  exact absurd h (by decide)

/-! ## Lemmas: the dict model -/

theorem pySet_of_hasKey {m : PyDict} {key : Option String} (v : String)
    (h : hasKey m key = true) :
    pySet m key v = m.map (fun p => if p.1 = key then (key, v) else p) := by
  simp [pySet, h]

theorem pySet_of_not_hasKey {m : PyDict} {key : Option String} (v : String)
    (h : hasKey m key = false) :
    pySet m key v = m ++ [(key, v)] := by
  simp [pySet, h]

theorem countKey_append (m1 m2 : PyDict) (k : Option String) :
    countKey (m1 ++ m2) k = countKey m1 k + countKey m2 k := by
  induction m1 with
  | nil => simp [countKey]
  | cons p rest ih =>
    obtain ⟨k0, v0⟩ := p
    show (if k0 = k then 1 else 0) + countKey (rest ++ m2) k = _
    rw [ih]
    show _ = (if k0 = k then 1 else 0) + countKey rest k + countKey m2 k
    omega

theorem hasKey_false_count {m : PyDict} {k : Option String} (h : hasKey m k = false) :
    countKey m k = 0 := by
  induction m with
  | nil => rfl
  | cons p rest ih =>
    obtain ⟨k0, v0⟩ := p
    by_cases hk : k0 = k
    · simp [hasKey, hk] at h
    · simp only [hasKey, if_neg hk] at h
      show (if k0 = k then 1 else 0) + countKey rest k = 0
      rw [if_neg hk, ih h]

theorem hasKey_true_count {m : PyDict} {k : Option String} (h : hasKey m k = true) :
    1 ≤ countKey m k := by
  induction m with
  | nil => simp [hasKey] at h
  | cons p rest ih =>
    obtain ⟨k0, v0⟩ := p
    show 1 ≤ (if k0 = k then 1 else 0) + countKey rest k
    by_cases hk : k0 = k
    · rw [if_pos hk]; omega
    · simp only [hasKey, if_neg hk] at h
      have := ih h
      rw [if_neg hk]
      omega

theorem countKey_replace (m : PyDict) (key : Option String) (v : String) (k : Option String) :
    countKey (m.map (fun p => if p.1 = key then (key, v) else p)) k = countKey m k := by
  induction m with
  | nil => rfl
  | cons p rest ih =>
    obtain ⟨k0, v0⟩ := p
    by_cases hk : k0 = key
    · simp only [List.map_cons]
      rw [if_pos hk]
      show (if key = k then 1 else 0) + countKey (rest.map _) k
            = (if k0 = k then 1 else 0) + countKey rest k
      rw [ih, hk]
    · simp only [List.map_cons]
      rw [if_neg hk]
      show (if k0 = k then 1 else 0) + countKey (rest.map _) k
            = (if k0 = k then 1 else 0) + countKey rest k
      rw [ih]

theorem allLE1_nil : AllLE1 [] := by
  intro k
  show (0 : Nat) ≤ 1
  omega

theorem allLE1_pySet {m : PyDict} (h : AllLE1 m) (key : Option String) (v : String) :
    AllLE1 (pySet m key v) := by
  intro k
  cases hm : hasKey m key with
  | true => rw [pySet_of_hasKey v hm, countKey_replace]; exact h k
  | false =>
    rw [pySet_of_not_hasKey v hm, countKey_append]
    have h0 := hasKey_false_count hm
    by_cases hk : key = k
    · subst hk
      rw [h0]
      show 0 + ((if key = key then 1 else 0) + 0) ≤ 1
      simp
    · have hone : countKey [(key, v)] k = 0 := by
        show (if key = k then 1 else 0) + 0 = 0
        rw [if_neg hk]
      rw [hone]
      have := h k
      omega

theorem countKey_pySet_self {m : PyDict} (h : AllLE1 m) (key : Option String) (v : String) :
    countKey (pySet m key v) key = 1 := by
  cases hm : hasKey m key with
  | true =>
    rw [pySet_of_hasKey v hm, countKey_replace]
    have h1 := hasKey_true_count hm
    have h2 := h key
    omega
  | false =>
    rw [pySet_of_not_hasKey v hm, countKey_append, hasKey_false_count hm]
    show 0 + ((if key = key then 1 else 0) + 0) = 1
    simp

theorem getVal_replace {m : PyDict} {key : Option String} (v : String)
    (h : hasKey m key = true) :
    getVal (m.map (fun p => if p.1 = key then (key, v) else p)) key = some v := by
  induction m with
  | nil => simp [hasKey] at h
  | cons p rest ih =>
    obtain ⟨k0, v0⟩ := p
    by_cases hk : k0 = key
    · simp only [List.map_cons]
      rw [if_pos hk]
      show (if key = key then some v else _) = some v
      simp
    · simp only [hasKey, if_neg hk] at h
      simp only [List.map_cons]
      rw [if_neg hk]
      show (if k0 = key then some v0 else getVal (rest.map _) key) = some v
      rw [if_neg hk]
      exact ih h

theorem getVal_append_right {m : PyDict} {key : Option String}
    (h : hasKey m key = false) (l2 : PyDict) :
    getVal (m ++ l2) key = getVal l2 key := by
  induction m with
  | nil => rfl
  | cons p rest ih =>
    obtain ⟨k0, v0⟩ := p
    by_cases hk : k0 = key
    · simp [hasKey, hk] at h
    · simp only [hasKey, if_neg hk] at h
      show (if k0 = key then some v0 else getVal (rest ++ l2) key) = getVal l2 key
      rw [if_neg hk]
      exact ih h

theorem getVal_pySet_self (m : PyDict) (key : Option String) (v : String) :
    getVal (pySet m key v) key = some v := by
  cases hm : hasKey m key with
  | true => rw [pySet_of_hasKey v hm]; exact getVal_replace v hm
  | false =>
    rw [pySet_of_not_hasKey v hm, getVal_append_right hm]
    show (if key = key then some v else none) = some v
    simp

theorem allLE1_foldl : ∀ (ps : List (Option String × String)) (d : PyDict), AllLE1 d →
    AllLE1 (ps.foldl (fun d p => pySet d p.1 p.2) d) := by
  intro ps
  induction ps with
  | nil => intro d h; exact h
  | cons p rest ih =>
    intro d h
    exact ih _ (allLE1_pySet h p.1 p.2)

theorem allLE1_scrape (tree : XmlDoc) (xid : Option String) (ns : String) {d : PyDict}
    (h : AllLE1 d) : AllLE1 (scrape_profiles tree xid ns d) :=
  allLE1_foldl _ _ h

/-! ## Lemmas: the evaluate orchestrator -/

theorem evaluate_ok_of_args {spec : EvaluationSpec} {config : Config} {args : List String}
    (launch : LaunchResult) (dirName : String) (hv : spec.valid = true)
    (ha : get_evaluation_args spec config = Except.ok args) :
    evaluate spec config launch dirName
      = Except.ok (dirName, ⟨true, true, true, some (intRepr (observedExit launch))⟩) := by
  simp [evaluate, hv, ha]

theorem evaluate_err_of_args {spec : EvaluationSpec} {config : Config} {msg : String}
    (launch : LaunchResult) (dirName : String) (hv : spec.valid = true)
    (he : get_evaluation_args spec config = Except.error msg) :
    evaluate spec config launch dirName = Except.error (msg, some ⟨true, true, true, none⟩) := by
  simp [evaluate, hv, he]

/-! ## Claim theorems -/

/-- Claim C1: the spec says the docker targets fail with ToolNotConfigured
exactly when `oscap_docker_path` is empty and that the check is against the
docker path. The code instead tests `oscap_ssh_path` while naming the
oscap-docker tool in its own error message and invoking the docker binary:
with the ssh path empty and the docker path configured it raises, and with
the docker path empty and the ssh path configured it happily selects the
empty string as the binary. -/
theorem claim1_docker_check_against_ssh_path :
    get_evaluation_args dockerSpec cfgNoSsh
      = Except.error "Target requires the oscap-docker tool which has not been found"
    ∧ cfgNoSsh.oscap_docker_path = "/usr/bin/oscap-docker"
    ∧ get_evaluation_args dockerSpec cfgNoDocker = Except.ok ["", "image", "fedora"]
    ∧ cfgNoDocker.oscap_docker_path = "" :=
  ⟨rfl, rfl, rfl, rfl⟩

/-- Claim C2, counterexample: on an unreadable content path the function
returns the empty map, not the singleton sentinel map the claim requires. -/
theorem claim2_counterexample :
    get_profile_choices_for_input ParseOutcome.ioError none none = Except.ok []
    ∧ countKey [] (some "") = 0 :=
  ⟨rfl, rfl⟩

/-- Claim C2, amended: when the content document parses, every returned map
holds the sentinel entry mapping the empty string key to "(default)" exactly
once; when the content document cannot be opened or parsed, the function
returns the empty map, without the sentinel. -/
theorem claim2_sentinel_amended (input_file : ParseOutcome)
    (tailoring : Option ParseOutcome) (xid : Option String) (m : PyDict)
    (h : get_profile_choices_for_input input_file tailoring xid = Except.ok m) :
    (input_file = ParseOutcome.ioError ∨ input_file = ParseOutcome.parseError → m = [])
    ∧ (∀ doc, input_file = ParseOutcome.parsed doc →
        countKey m (some "") = 1 ∧ getVal m (some "") = some "(default)") := by
  constructor
  · rintro (rfl | rfl) <;>
    · simp only [get_profile_choices_for_input, Except.ok.injEq] at h
      exact h.symm
  · rintro doc rfl
    cases tailoring with
    | none =>
      simp only [get_profile_choices_for_input, Except.ok.injEq] at h
      constructor
      · rw [← h]
        exact countKey_pySet_self
          (allLE1_scrape doc xid ns_source_12 (allLE1_scrape doc xid ns_source_11 allLE1_nil)) _ _
      · rw [← h]
        exact getVal_pySet_self _ _ _
    | some t =>
      cases t with
      | ioError => simp [get_profile_choices_for_input] at h
      | parseError => simp [get_profile_choices_for_input] at h
      | parsed tdoc =>
        simp only [get_profile_choices_for_input, Except.ok.injEq] at h
        constructor
        · rw [← h]
          exact countKey_pySet_self
            (allLE1_scrape tdoc none ns_source_12 (allLE1_scrape tdoc none ns_source_11
              (allLE1_scrape doc xid ns_source_12 (allLE1_scrape doc xid ns_source_11
                allLE1_nil)))) _ _
        · rw [← h]
          exact getVal_pySet_self _ _ _

/-- Claim C2, witness: a concrete document with one profile yields a map
whose sentinel entry occurs exactly once with the title "(default)". -/
theorem claim2_sentinel_witness :
    countKey [(some "p1", "Title A"), (some "", "(default)")] (some "") = 1
    ∧ getVal [(some "p1", "Title A"), (some "", "(default)")] (some "") = some "(default)" :=
  (claim2_sentinel_amended (ParseOutcome.parsed sampleDoc) none none
    [(some "p1", "Title A"), (some "", "(default)")] rfl).2 sampleDoc rfl

/-- Claim C3, counterexample: a valid spec whose target matches no scheme
makes `evaluate` raise, so InvalidSpec is not the only failure. -/
theorem claim3_counterexample :
    badTargetSpec.valid = true
    ∧ evaluate badTargetSpec cfgFull (LaunchResult.exited 0) "/var/lib/oscapd/work/r1"
        = Except.error ("Unrecognized target in evaluation spec",
            some ⟨true, true, true, none⟩) :=
  ⟨rfl, rfl⟩

/-- Claim C3, amended: for a valid spec whose target resolves, `evaluate`
returns the run directory path whatever the child process does, including a
non zero exit and a launch failure; the only failures are an invalid spec
and a target that does not resolve. -/
theorem claim3_returns_dir_amended (spec : EvaluationSpec) (config : Config)
    (launch : LaunchResult) (dirName : String) (args : List String)
    (hv : spec.valid = true) (ha : get_evaluation_args spec config = Except.ok args) :
    evaluate spec config launch dirName
      = Except.ok (dirName, ⟨true, true, true, some (intRepr (observedExit launch))⟩) :=
  evaluate_ok_of_args launch dirName hv ha

/-- Claim C3, witness: a localhost scan that exits non compliant (code 2)
still returns the run directory path. -/
theorem claim3_witness :
    evaluate localSpec cfgFull (LaunchResult.exited 2) "/var/lib/oscapd/work/r2"
      = Except.ok ("/var/lib/oscapd/work/r2", ⟨true, true, true, some (intRepr 2)⟩) :=
  claim3_returns_dir_amended localSpec cfgFull (LaunchResult.exited 2)
    "/var/lib/oscapd/work/r2" ["/usr/bin/oscap", "xccdf", "eval"] rfl rfl

/-- Claim C4: every evaluation that runs writes an exit_code file whose
content parses back to the exit code actually observed, and a launch
failure records exactly "1". -/
theorem claim4_exit_code_file (spec : EvaluationSpec) (config : Config)
    (launch : LaunchResult) (dirName : String) (args : List String)
    (hv : spec.valid = true) (ha : get_evaluation_args spec config = Except.ok args) :
    ∃ st : RunDirState,
      evaluate spec config launch dirName = Except.ok (dirName, st)
      ∧ st.exitCodeContent = some (intRepr (observedExit launch))
      ∧ pyInt (intRepr (observedExit launch)) = some (observedExit launch)
      ∧ (launch = LaunchResult.failed → st.exitCodeContent = some "1") := by
  refine ⟨⟨true, true, true, some (intRepr (observedExit launch))⟩,
    evaluate_ok_of_args launch dirName hv ha, rfl, pyInt_intRepr _, ?_⟩
  rintro rfl
  rfl

/-- Claim C4, witness: a launch failure on a localhost scan records the
content "1" in the exit_code file. -/
theorem claim4_witness :
    ∃ st : RunDirState,
      evaluate localSpec cfgFull LaunchResult.failed "/var/lib/oscapd/work/r3"
        = Except.ok ("/var/lib/oscapd/work/r3", st)
      ∧ st.exitCodeContent = some (intRepr (observedExit LaunchResult.failed))
      ∧ pyInt (intRepr (observedExit LaunchResult.failed))
          = some (observedExit LaunchResult.failed)
      ∧ (LaunchResult.failed = LaunchResult.failed → st.exitCodeContent = some "1") :=
  claim4_exit_code_file localSpec cfgFull LaunchResult.failed "/var/lib/oscapd/work/r3"
    ["/usr/bin/oscap", "xccdf", "eval"] rfl rfl

/-- Claim C5: the colon split of the source (split at every colon, unpack
two parts, parse the port) observably equals the split once reading of the
spec, including the default port 22 and the fatal non numeric port; and a
resolvable ssh plus sudo target yields the prefix with the sudo flag, the
host and the rendered port. -/
theorem claim5_ssh_parse :
    (∀ target, split_ssh_target target = spec_split_ssh_target target)
    ∧ (∀ (spec : EvaluationSpec) (config : Config) (host : String) (port : Int),
        pyStartsWith spec.target "ssh+sudo://" = true →
        config.oscap_ssh_path ≠ "" →
        split_ssh_target spec.target = some (host, port) →
        get_evaluation_args spec config
          = Except.ok ([config.oscap_ssh_path, "--sudo", host, intRepr port]
              ++ spec.oscap_arguments)) := by
  constructor
  · exact split_ssh_target_eq_spec
  · intro spec config host port hsudo hpath hsplit
    unfold get_evaluation_args
    rw [if_neg (sudo_ne_localhost hsudo), sudo_not_ssh hsudo, hsudo]
    simp only [Bool.false_eq_true, if_false, if_true, if_neg hpath, hsplit]
    rfl

/-- Claim C5, witness: the target ssh+sudo://rh:2222 resolves to the sudo
prefix with host rh and port 2222. -/
theorem claim5_witness :
    get_evaluation_args sudoSpec cfgFull
      = Except.ok ["/usr/bin/oscap-ssh", "--sudo", "rh", intRepr 2222] :=
  claim5_ssh_parse.2 sudoSpec cfgFull "rh" 2222 rfl (by decide) rfl

/-- Claim C6: the four real modes round trip through their tokens, every
other token maps to UNKNOWN, and the display token "unknown" comes back as
UNKNOWN, which is none of the four real modes. -/
theorem claim6_mode_roundtrip :
    (EvaluationMode.from_string
        (EvaluationMode.to_string EvaluationMode.SOURCE_DATASTREAM)
        = EvaluationMode.SOURCE_DATASTREAM
      ∧ EvaluationMode.from_string (EvaluationMode.to_string EvaluationMode.OVAL)
        = EvaluationMode.OVAL
      ∧ EvaluationMode.from_string (EvaluationMode.to_string EvaluationMode.CVE_SCAN)
        = EvaluationMode.CVE_SCAN
      ∧ EvaluationMode.from_string (EvaluationMode.to_string EvaluationMode.STANDARD_SCAN)
        = EvaluationMode.STANDARD_SCAN)
    ∧ (∀ s : String, s ≠ "sds" → s ≠ "oval" → s ≠ "cve_scan" → s ≠ "standard_scan" →
        EvaluationMode.from_string s = EvaluationMode.UNKNOWN)
    ∧ (EvaluationMode.to_string EvaluationMode.UNKNOWN = "unknown"
      ∧ EvaluationMode.from_string "unknown" = EvaluationMode.UNKNOWN
      ∧ EvaluationMode.UNKNOWN ≠ EvaluationMode.SOURCE_DATASTREAM
      ∧ EvaluationMode.UNKNOWN ≠ EvaluationMode.OVAL
      ∧ EvaluationMode.UNKNOWN ≠ EvaluationMode.CVE_SCAN
      ∧ EvaluationMode.UNKNOWN ≠ EvaluationMode.STANDARD_SCAN) := by
  refine ⟨⟨rfl, rfl, rfl, rfl⟩, ?_, by decide⟩
  intro s h1 h2 h3 h4
  unfold EvaluationMode.from_string
  rw [if_neg h1, if_neg h2, if_neg h3, if_neg h4]

/-- Claim C6, witness: an arbitrary unrecognized token maps to UNKNOWN. -/
theorem claim6_witness : EvaluationMode.from_string "bogus" = EvaluationMode.UNKNOWN :=
  claim6_mode_roundtrip.2.1 "bogus" (by decide) (by decide) (by decide) (by decide)

/-- Claim C7: exit code 0 classifies as Compliant, 2 as Non-Compliant, 1 as
Evaluation Error, and every other code as an Unknown status string that
embeds the rendered numeric code. -/
theorem claim7_status_classify :
    get_status_from_exit_code 0 = "Compliant"
    ∧ get_status_from_exit_code 2 = "Non-Compliant"
    ∧ get_status_from_exit_code 1 = "Evaluation Error"
    ∧ (∀ code : Int, code ≠ 0 → code ≠ 1 → code ≠ 2 →
        get_status_from_exit_code code = "Unknown (exit_code = " ++ intRepr code ++ ")"
        ∧ ∃ a b : List Char, (get_status_from_exit_code code).toList
            = a ++ (intRepr code).toList ++ b) := by
  refine ⟨rfl, rfl, rfl, ?_⟩
  intro code h0 h1 h2
  have heq : get_status_from_exit_code code
      = "Unknown (exit_code = " ++ intRepr code ++ ")" := by
    unfold get_status_from_exit_code
    rw [if_neg h0, if_neg h1, if_neg h2]
  refine ⟨heq, "Unknown (exit_code = ".toList, ")".toList, ?_⟩
  rw [heq]
  show (("Unknown (exit_code = " ++ intRepr code) ++ ")").data = _
  rw [String.data_append, String.data_append]
  rfl

/-- Claim C7, witness: the classification at 77. -/
theorem claim7_witness :
    get_status_from_exit_code 77 = "Unknown (exit_code = " ++ intRepr 77 ++ ")"
    ∧ ∃ a b : List Char, (get_status_from_exit_code 77).toList
        = a ++ (intRepr 77).toList ++ b :=
  claim7_status_classify.2.2.2 77 (by decide) (by decide) (by decide)

/-- Claim C8: an unreadable or unparsable content document is non fatal and
the function returns the map collected so far (empty at that point), while
the same failure on an explicitly supplied tailoring document propagates as
a fatal error. -/
theorem claim8_error_asymmetry :
    (∀ (t : Option ParseOutcome) (x : Option String),
        get_profile_choices_for_input ParseOutcome.ioError t x = Except.ok []
        ∧ get_profile_choices_for_input ParseOutcome.parseError t x = Except.ok [])
    ∧ (∀ (doc : XmlDoc) (x : Option String),
        get_profile_choices_for_input (ParseOutcome.parsed doc)
            (some ParseOutcome.ioError) x = Except.error "IOError"
        ∧ get_profile_choices_for_input (ParseOutcome.parsed doc)
            (some ParseOutcome.parseError) x = Except.error "ParseError") :=
  ⟨fun _ _ => ⟨rfl, rfl⟩, fun _ _ => ⟨rfl, rfl⟩⟩

/-- Claim C9: the fix type table maps bash, ansible and puppet to their
template URNs and rejects every other token; a results document without a
TestResult element fails with the malformed results error; and otherwise
the argument vector is the oscap fix invocation with the result id and
template, the optional xccdf id pair exactly when requested, and the
results path last. -/
theorem claim9_generate_fix :
    (fix_type_to_template "bash" = some "urn:xccdf:fix:script:sh"
      ∧ fix_type_to_template "ansible" = some "urn:xccdf:fix:script:ansible"
      ∧ fix_type_to_template "puppet" = some "urn:xccdf:fix:script:puppet")
    ∧ (∀ ft : String, ft ≠ "bash" → ft ≠ "ansible" → ft ≠ "puppet" →
        fix_type_to_template ft = none
        ∧ ∀ (config : Config) (results_path rid : String) (x : Option String),
            generate_fix_for_result config (ResultsFile.parsed (some (some rid)))
              results_path ft x = Except.error "KeyError: fix_type")
    ∧ (∀ (config : Config) (results_path ft : String) (x : Option String),
        generate_fix_for_result config (ResultsFile.parsed none) results_path ft x
          = Except.error "Results XML does not contain any results")
    ∧ (∀ (config : Config) (results_path rid ft template : String),
        fix_type_to_template ft = some template →
        generate_fix_for_result config (ResultsFile.parsed (some (some rid)))
            results_path ft none
          = Except.ok [config.oscap_path, "xccdf", "generate", "fix",
              "--result-id", rid, "--template", template, results_path]
        ∧ ∀ x : String,
            generate_fix_for_result config (ResultsFile.parsed (some (some rid)))
                results_path ft (some x)
              = Except.ok [config.oscap_path, "xccdf", "generate", "fix",
                  "--result-id", rid, "--template", template,
                  "--xccdf-id", x, results_path]) := by
  refine ⟨⟨rfl, rfl, rfl⟩, ?_, ?_, ?_⟩
  · intro ft h1 h2 h3
    have hn : fix_type_to_template ft = none := by
      unfold fix_type_to_template
      rw [if_neg h1, if_neg h2, if_neg h3]
    refine ⟨hn, ?_⟩
    intro config results_path rid x
    unfold generate_fix_for_result
    rw [if_neg (by simp)]
    show (match fix_type_to_template ft with
          | none => Except.error "KeyError: fix_type"
          | some template => _) = _
    rw [hn]
  · intro config results_path ft x
    unfold generate_fix_for_result
    rw [if_neg (by simp)]
    rfl
  · intro config results_path rid ft template hft
    constructor
    · unfold generate_fix_for_result
      rw [if_neg (by simp)]
      show (match fix_type_to_template ft with
            | none => Except.error "KeyError: fix_type"
            | some template => _) = _
      rw [hft]
      rfl
    · intro x
      unfold generate_fix_for_result
      rw [if_neg (by simp)]
      show (match fix_type_to_template ft with
            | none => Except.error "KeyError: fix_type"
            | some template => _) = _
      rw [hft]
      rfl

/-- Claim C9, witness: the bash fix type on a concrete results document
yields the full argument vector with the sh template. -/
theorem claim9_witness :
    generate_fix_for_result cfgFull (ResultsFile.parsed (some (some "xccdf_res1")))
        "/results/arf.xml" "bash" none
      = Except.ok ["/usr/bin/oscap", "xccdf", "generate", "fix",
          "--result-id", "xccdf_res1", "--template", "urn:xccdf:fix:script:sh",
          "/results/arf.xml"] :=
  (claim9_generate_fix.2.2.2 cfgFull "/results/arf.xml" "xccdf_res1" "bash"
    "urn:xccdf:fix:script:sh" rfl).1

/-- Claim C10: when the spec is valid but the target does not resolve, the
error is raised after the run directory exists and its stdout and stderr
files are opened, and the directory never receives an exit_code file. -/
theorem claim10_error_after_creation (spec : EvaluationSpec) (config : Config)
    (launch : LaunchResult) (dirName msg : String)
    (hv : spec.valid = true) (he : get_evaluation_args spec config = Except.error msg) :
    evaluate spec config launch dirName
      = Except.error (msg,
          some { created := true, stdoutOpened := true, stderrOpened := true,
                 exitCodeContent := none }) :=
  evaluate_err_of_args launch dirName hv he

/-- Claim C10, witness: a valid localhost spec with the oscap tool missing
leaves behind a run directory with opened stdout and stderr and no
exit_code file. -/
theorem claim10_witness :
    evaluate localSpec cfgNoOscap LaunchResult.failed "/var/lib/oscapd/work/r4"
      = Except.error ("Target requires the oscap tool which has not been found",
          some ⟨true, true, true, none⟩) :=
  claim10_error_after_creation localSpec cfgNoOscap LaunchResult.failed
    "/var/lib/oscapd/work/r4" "Target requires the oscap tool which has not been found"
    rfl rfl

end OscapDaemon
